import Mathlib

/-!
# BayScan Scoring & Learning Engine — shallow embedding

This file embeds, in Lean, the parts of the BayScan fishing-forecast
engine that the verified claims are about:

* the condition banding helpers of `app/services/condition_learning_service.py`
  (`classify_tide`, `classify_clarity`, `classify_wind`, `classify_current`);
* the learning-table updaters `update_rig_effect`
  (`app/services/rig_learning_service.py`), `update_zone_condition_effect`
  and `update_rig_condition_effect` (`condition_learning_service.py`);
* the score cache of `app/services/score_cache_service.py`
  (`get_smoothing_weight`, `get_score_rating`, `get_confidence_level`,
  `recalculate_bite_score`);
* the recent-activity and predator modifiers of
  `app/services/hyperlocal_scoring.py` together with the confidence weight of
  `app/services/confidence_scoring.py`;
* the `POST /catches` handler `log_catch` of `app/main.py` (its request model
  `CatchCreate`, catch persistence, crab-trap weight multiplier and the
  learning/recompute trigger chain with its failure handling);
* the pair-selection logic of `periodic_score_recalculation`
  (`app/scheduler.py`).

Database tables are modelled as lists of rows; SQLAlchemy upserts become
find-and-replace (or append) on those lists.  Python floats are modelled as
`ℚ` wherever the code computes with rational constants only, and as `ℝ`
where `math.log` / fractional powers appear (the `weight` columns and the
recent-activity decay).  Timestamps are modelled by their age in hours
relative to "now" (the code only ever compares timestamps against cutoffs
and converts differences to hours).
-/

namespace BayScan

/-! ## String helpers

Python's `s.lower()` and the substring test `pat in s`. -/

/-- `s.lower()` : lowercase every character. -/
def lowerString (s : String) : String := ⟨s.data.map Char.toLower⟩

/-- Does `pat` occur at the head of `l`? -/
def charsStartWith : List Char → List Char → Bool
  | _, [] => true
  | [], _ :: _ => false
  | c :: cs, p :: ps => c == p && charsStartWith cs ps

/-- Python substring containment `pat in s`. -/
def strContains (s pat : String) : Bool :=
  (List.range (s.data.length + 1)).any fun i => charsStartWith (s.data.drop i) pat.data

/-! ## Condition banding (condition_learning_service.py, lines 26–100) -/

/-- `classify_tide` (condition_learning_service.py lines 26–37).
`none` models a Python `None` argument; `not tide_stage` is true for both
`None` and the empty string. -/
def classify_tide : Option String → String
  | none => "unknown"
  | some s =>
    if s == "" then "unknown"
    else
      let t := lowerString s
      if strContains t "incoming" || strContains t "rising" then "incoming"
      else if strContains t "outgoing" || strContains t "falling" then "outgoing"
      else if strContains t "slack" || strContains t "high" || strContains t "low" then "slack"
      else "unknown"

/-- `classify_clarity` (condition_learning_service.py lines 40–50). -/
def classify_clarity : Option String → String
  | none => "clean"
  | some s =>
    if s == "" then "clean"
    else
      let t := lowerString s
      if strContains t "muddy" || strContains t "dirty" then "muddy"
      else if strContains t "stained" || strContains t "off" then "stained"
      else "clean"

/-- `classify_wind` (condition_learning_service.py lines 53–88).
The function looks up `profile.get('wind_preferences', {})`, but no entry of
`SPECIES_PROFILES` (app/rules/species_behavior_profiles.py) defines a
`wind_preferences` key — the profiles store wind data under `'wind'` — so the
lookup is always the empty dict and every path of the function returns
`"neutral"` (missing direction, missing profile, and empty preference lists
alike). -/
def classify_wind (_wind_direction : Option String) (_species : String) : String :=
  "neutral"

/-- `classify_current` (condition_learning_service.py lines 91–100). -/
def classify_current : Option ℚ → String
  | none => "low"
  | some c =>
    if c ≤ 0 then "low"
    else if c < 3/10 then "low"
    else if c < 6/10 then "medium"
    else "high"

/-! ## Learning-table rows -/

/-- A `rig_effects` row (app/models/schemas.py lines 321–335). -/
structure RigEffect where
  species : String
  zone_id : String
  rig_type : String
  success_count : ℚ
  weight : ℝ

/-- A `zone_condition_effects` row (schemas.py lines 338–354). -/
structure ZoneConditionEffect where
  species : String
  zone_id : String
  tide_band : String
  clarity_band : String
  wind_band : String
  current_band : String
  success_count : ℚ
  weight : ℝ

/-- A `rig_condition_effects` row (schemas.py lines 357–371). -/
structure RigConditionEffect where
  species : String
  rig_type : String
  tide_band : String
  clarity_band : String
  success_count : ℚ
  weight : ℝ

/-- The environment values read by the learning updaters: the
`conditions` dict assembled in `log_catch` (main.py lines 735–740). -/
structure Conditions where
  tide_stage : Option String
  clarity : Option String
  wind_direction : Option String
  current_speed : Option ℚ

/-- Key match for the `rig_effects` unique key (species, zone_id, rig_type). -/
def rigEffectMatches (r : RigEffect) (species zone_id rig_type : String) : Bool :=
  r.species == species && r.zone_id == zone_id && r.rig_type == rig_type

/-- `update_rig_effect` (rig_learning_service.py lines 20–90) acting on the
`rig_effects` table.  Returns the new table and the row that was written
(`none` when the update is skipped for a missing/unknown rig).  Note the
increment is always `+ 1`: this function takes no weight multiplier. -/
noncomputable def update_rig_effect (t : List RigEffect)
    (species zone_id rig_type : String) : List RigEffect × Option RigEffect :=
  if rig_type == "" || rig_type == "unknown" then (t, none)
  else
    match t.find? (fun r => rigEffectMatches r species zone_id rig_type) with
    | some old =>
      let c : ℚ := old.success_count + 1
      let upd : RigEffect :=
        { old with
          success_count := c
          weight := min 3 (Real.log ((c : ℝ) + 1)) }
      (t.map (fun r => if rigEffectMatches r species zone_id rig_type then upd else r),
       some upd)
    | none =>
      let c : ℚ := 1
      let created : RigEffect := { species := species, zone_id := zone_id,
                                   rig_type := rig_type, success_count := c,
                                   weight := min 3 (Real.log ((c : ℝ) + 1)) }
      (t ++ [created], some created)

/-- Key match for the `zone_condition_effects` unique key. -/
def zceMatches (r : ZoneConditionEffect)
    (species zone_id tide_band clarity_band wind_band current_band : String) : Bool :=
  r.species == species && r.zone_id == zone_id && r.tide_band == tide_band &&
  r.clarity_band == clarity_band && r.wind_band == wind_band &&
  r.current_band == current_band

/-- `update_zone_condition_effect` (condition_learning_service.py lines
103–185).  Bands the conditions, skips when the tide band is unknown, and
upserts with `success_count += weight_multiplier`,
`weight = min(4, log(success_count + 1))`. -/
noncomputable def update_zone_condition_effect (t : List ZoneConditionEffect)
    (species zone_id : String) (conditions : Conditions) (weight_multiplier : ℚ) :
    List ZoneConditionEffect × Option ZoneConditionEffect :=
  let tide_band := classify_tide conditions.tide_stage
  let clarity_band := classify_clarity conditions.clarity
  let wind_band := classify_wind conditions.wind_direction species
  let current_band := classify_current conditions.current_speed
  if tide_band == "unknown" then (t, none)
  else
    match t.find? (fun r => zceMatches r species zone_id tide_band clarity_band wind_band current_band) with
    | some old =>
      let c : ℚ := old.success_count + weight_multiplier
      let upd : ZoneConditionEffect :=
        { old with
          success_count := c
          weight := min 4 (Real.log ((c : ℝ) + 1)) }
      (t.map (fun r => if zceMatches r species zone_id tide_band clarity_band wind_band current_band then upd else r),
       some upd)
    | none =>
      let c : ℚ := weight_multiplier
      let created : ZoneConditionEffect := { species := species, zone_id := zone_id,
                                             tide_band := tide_band,
                                             clarity_band := clarity_band,
                                             wind_band := wind_band,
                                             current_band := current_band,
                                             success_count := c,
                                             weight := min 4 (Real.log ((c : ℝ) + 1)) }
      (t ++ [created], some created)

/-- Key match for the `rig_condition_effects` unique key. -/
def rceMatches (r : RigConditionEffect)
    (species rig_type tide_band clarity_band : String) : Bool :=
  r.species == species && r.rig_type == rig_type && r.tide_band == tide_band &&
  r.clarity_band == clarity_band

/-- `update_rig_condition_effect` (condition_learning_service.py lines
188–263). -/
noncomputable def update_rig_condition_effect (t : List RigConditionEffect)
    (species rig_type : String) (conditions : Conditions) (weight_multiplier : ℚ) :
    List RigConditionEffect × Option RigConditionEffect :=
  if rig_type == "" || rig_type == "unknown" then (t, none)
  else
    let tide_band := classify_tide conditions.tide_stage
    let clarity_band := classify_clarity conditions.clarity
    if tide_band == "unknown" then (t, none)
    else
      match t.find? (fun r => rceMatches r species rig_type tide_band clarity_band) with
      | some old =>
        let c : ℚ := old.success_count + weight_multiplier
        let upd : RigConditionEffect :=
          { old with
            success_count := c
            weight := min 4 (Real.log ((c : ℝ) + 1)) }
        (t.map (fun r => if rceMatches r species rig_type tide_band clarity_band then upd else r),
         some upd)
      | none =>
        let c : ℚ := weight_multiplier
        let created : RigConditionEffect := { species := species, rig_type := rig_type,
                                              tide_band := tide_band,
                                              clarity_band := clarity_band,
                                              success_count := c,
                                              weight := min 4 (Real.log ((c : ℝ) + 1)) }
        (t ++ [created], some created)

/-! ## Score cache (score_cache_service.py) -/

/-- `get_smoothing_weight` (score_cache_service.py lines 32–53). -/
def get_smoothing_weight (total_catches : ℕ) : ℚ :=
  if total_catches < 10 then 2/5 + (total_catches : ℚ) / 100
  else if total_catches < 50 then 1/5 + (50 - (total_catches : ℚ)) / 400
  else 1/10 + (100 - min (total_catches : ℚ) 100) / 1000

/-- `get_score_rating` (score_cache_service.py lines 56–67). -/
def get_score_rating (score : ℚ) : String :=
  if score ≤ 20 then "Poor"
  else if score ≤ 40 then "Fair"
  else if score ≤ 60 then "Good"
  else if score ≤ 80 then "Great"
  else "Excellent"

/-- `get_confidence_level` (score_cache_service.py lines 70–77). -/
def get_confidence_level (total_catches : ℕ) : String :=
  if total_catches < 10 then "low"
  else if total_catches < 50 then "medium"
  else "high"

/-- STEP E of `recalculate_bite_score` (score_cache_service.py lines 198–215):
smooth against the old cached score unless there is none or
`force_recalc` is set. -/
def smoothed_score (old_score : Option ℚ) (raw_score : ℚ) (total_catches : ℕ)
    (force_recalc : Bool) : ℚ :=
  match old_score, force_recalc with
  | some s, false =>
    s * (1 - get_smoothing_weight total_catches) +
      raw_score * get_smoothing_weight total_catches
  | _, _ => raw_score

/-- The `max(0.0, min(100.0, new_score))` clamp (score_cache_service.py
line 218). -/
def clamp_score (s : ℚ) : ℚ := max 0 (min 100 s)

/-- A `catches` row (schemas.py lines 107–160), restricted to the columns the
modelled components read.  Timestamps are not modelled here: the pipeline
claims never compare them (the time-decayed modifiers are modelled
separately with explicit ages). -/
structure CatchRow where
  id : ℕ
  species : String
  zone_id : String
  quantity : ℕ
  rig_type : Option String
  tide_stage : Option String
  wind_direction : Option String
  current_speed : Option ℚ

/-- A `bite_scores` row (schemas.py lines 285–301), restricted to the
columns the claims are about. -/
structure BiteScore where
  species : String
  zone_id : String
  score : ℚ
  rating : String
  confidence : String
deriving DecidableEq

/-- The mutable state of the modelled tables. -/
structure DB where
  catches : List CatchRow
  rig_effects : List RigEffect
  zone_condition_effects : List ZoneConditionEffect
  rig_condition_effects : List RigConditionEffect
  bite_scores : List BiteScore

/-- The database with every modelled table empty. -/
def emptyDB : DB :=
  { catches := [], rig_effects := [], zone_condition_effects := [],
    rig_condition_effects := [], bite_scores := [] }

/-- STEP B of `recalculate_bite_score`: count of all catches for the
(species, zone) pair. -/
def catch_count (db : DB) (species zone_id : String) : ℕ :=
  (db.catches.filter fun c => c.species == species && c.zone_id == zone_id).length

/-- Key match for the `bite_scores` unique key (species, zone_id). -/
def biteScoreMatches (b : BiteScore) (species zone_id : String) : Bool :=
  b.species == species && b.zone_id == zone_id

/-- `recalculate_bite_score` (score_cache_service.py lines 127–272).
The raw score produced by `calculate_zone_bite_score` is passed in as
`raw_score` (its computation reads the environment and rule tables and is
not needed by the claims; rating and confidence do not depend on it beyond
the value itself).  The row is upserted with rating and confidence derived
from the clamped score and the catch count. -/
def recalculate_bite_score (db : DB) (species zone_id : String) (raw_score : ℚ)
    (force_recalc : Bool) : DB :=
  let total := catch_count db species zone_id
  let old := db.bite_scores.find? fun b => biteScoreMatches b species zone_id
  let new_score := clamp_score (smoothed_score (old.map (·.score)) raw_score total force_recalc)
  let row : BiteScore :=
    { species := species, zone_id := zone_id, score := new_score,
      rating := get_score_rating new_score,
      confidence := get_confidence_level total }
  { db with bite_scores :=
      match old with
      | some _ => db.bite_scores.map fun b =>
          if biteScoreMatches b species zone_id then row else b
      | none => db.bite_scores ++ [row] }

/-! ## The POST /catches handler (app/main.py lines 634–775) -/

/-- The pydantic request model `CatchCreate` (main.py lines 35–51).  Note:
there is no `rig_type` field — the handler derives `rig_type` from
`presentation` (main.py line 663), and unknown request-body fields are
dropped by the framework when the model is parsed. -/
structure CatchCreate where
  species : String
  zone_id : String
  distance_from_dock : Option String
  depth_estimate : Option String
  structure_type : Option String
  size_length_in : Option ℤ
  size_bucket : Option String
  quantity : Option ℕ
  bait_used : Option String
  presentation : Option String
  predator_seen_recently : Bool
  kept : Bool
  notes : Option String
  days_since_last_checked : Option ℕ

/-- Failure switches for the event-trigger block of `log_catch` (main.py
lines 716–757): each flag makes the corresponding step raise.  A raising
step rolls its own changes back (each service commits or rolls back
independently) and aborts the remaining steps; the exception is caught by
the handler's `except` clause at lines 754–756. -/
structure LearnFlags where
  rig_fails : Bool
  zone_cond_fails : Bool
  rig_cond_fails : Bool
  recalc_fails : Bool
  tip_fails : Bool

/-- All learning steps succeed. -/
def noFailures : LearnFlags :=
  { rig_fails := false, zone_cond_fails := false, rig_cond_fails := false,
    recalc_fails := false, tip_fails := false }

/-- The success payload of `log_catch` (main.py lines 761–770), restricted
to the persisted id and message. -/
structure LogCatchResponse where
  id : ℕ
  message : String
deriving DecidableEq

/-- The `Catch` row built by `log_catch` (main.py lines 666–700):
`rig_type` is `catch_data.presentation`, `quantity` defaults to 1, and the
environment columns are copied from the snapshot/tide lookup. -/
def mk_catch_row (db : DB) (req : CatchCreate) (env : Conditions) : CatchRow :=
  { id := db.catches.length + 1,
    species := req.species,
    zone_id := req.zone_id,
    quantity := req.quantity.getD 1,
    rig_type := req.presentation,
    tide_stage := env.tide_stage,
    wind_direction := env.wind_direction,
    current_speed := env.current_speed }

/-- Crab-trap detection (main.py lines 719–723): species `blue_crab` and a
rig type containing `trap` or `pot` (case-insensitive). -/
def is_crab_trap (species : String) (rig_type : Option String) : Bool :=
  species == "blue_crab" &&
    match rig_type with
    | some rt => strContains (lowerString rt) "trap" || strContains (lowerString rt) "pot"
    | none => false

/-- `condition_weight` (main.py line 725): 0.15 for crab traps, 1.0
otherwise.  This multiplier is passed to the two condition-effect updates
only. -/
def condition_weight_of (species : String) (rig_type : Option String) : ℚ :=
  if is_crab_trap species rig_type then 15/100 else 1

/-- `log_catch` (main.py lines 634–775).  Inputs beyond the request body:
`env` is the environment read from the latest snapshot and the tide lookup,
and `raw_score` is the value `calculate_zone_bite_score` produces inside
the recompute step.  The `Catch` row is committed first; then the trigger
block runs `update_rig_effect` (without the weight multiplier),
`update_zone_condition_effect` and `update_rig_condition_effect` (with it),
`recalculate_bite_score` and the tip update, any failure being caught.  The
tip update writes only the `species_zone_tips` table, which no claim reads,
so it does not change the modelled state.  The success payload is returned
regardless of trigger failures. -/
noncomputable def log_catch (db : DB) (req : CatchCreate) (env : Conditions)
    (raw_score : ℚ) (flags : LearnFlags) : DB × LogCatchResponse :=
  let rig_type := req.presentation
  let newCatch := mk_catch_row db req env
  let db1 : DB := { db with catches := db.catches ++ [newCatch] }
  let condition_weight := condition_weight_of req.species rig_type
  let conditions_for_learning : Conditions :=
    { tide_stage := newCatch.tide_stage,
      clarity := some (env.clarity.getD "clean"),
      wind_direction := newCatch.wind_direction,
      current_speed := newCatch.current_speed }
  let final : DB :=
    if flags.rig_fails then db1 else
    let dbA : DB :=
      match rig_type with
      | some rt =>
        if rt == "" then db1
        else { db1 with rig_effects :=
                 (update_rig_effect db1.rig_effects newCatch.species newCatch.zone_id rt).1 }
      | none => db1
    if flags.zone_cond_fails then dbA else
    let dbB : DB :=
      { dbA with zone_condition_effects :=
          (update_zone_condition_effect dbA.zone_condition_effects newCatch.species
            newCatch.zone_id conditions_for_learning condition_weight).1 }
    if flags.rig_cond_fails then dbB else
    let dbC : DB :=
      match rig_type with
      | some rt =>
        if rt == "" then dbB
        else { dbB with rig_condition_effects :=
                 (update_rig_condition_effect dbB.rig_condition_effects newCatch.species rt
                   conditions_for_learning condition_weight).1 }
      | none => dbB
    if flags.recalc_fails then dbC else
    recalculate_bite_score dbC newCatch.species newCatch.zone_id raw_score false
  (final, { id := newCatch.id,
            message := "Catch logged successfully with full environment snapshot" })

/-! ## Hyperlocal modifiers (hyperlocal_scoring.py, confidence_scoring.py) -/

/-- The `recent_activity_weight` attached to the confidence dict by
`calculate_species_zone_confidence` (confidence_scoring.py lines 36–47):
0.3 for fewer than 10 historical catches of the pair, 0.6 for fewer than
50, 1.0 otherwise. -/
def recent_activity_weight (total_catches : ℕ) : ℚ :=
  if total_catches < 10 then 3/10
  else if total_catches < 50 then 6/10
  else 1

/-- A catch as seen by `calculate_recent_activity_modifier`: its species,
zone, age in hours relative to "now", and quantity. -/
structure RecentCatch where
  species : String
  zone_id : String
  hoursAgo : ℚ
  quantity : ℕ
deriving DecidableEq

/-- The decayed contribution of one catch (hyperlocal_scoring.py lines
368–376): `4.0 * 0.75 ** hours_ago * quantity`. -/
noncomputable def recent_catch_value (c : RecentCatch) : ℝ :=
  4 * (3/4 : ℝ) ^ (c.hoursAgo : ℝ) * (c.quantity : ℝ)

/-- `calculate_recent_activity_modifier` (hyperlocal_scoring.py lines
340–387).  The db query keeps the catches of the pair whose timestamp is
within the 6-hour cutoff; the loop sums the decayed values; the sum is then
multiplied by the confidence weight and finally capped at +10.
`total_catches` is the pair's historical count from which the confidence
weight is derived. -/
noncomputable def calculate_recent_activity_modifier (catches : List RecentCatch)
    (species zone_id : String) (total_catches : ℕ) : ℝ :=
  let recent := catches.filter fun c =>
    c.species == species && c.zone_id == zone_id && decide (c.hoursAgo ≤ 6)
  let score := recent.foldl (fun acc c => acc + recent_catch_value c) 0
  min 10 (score * (recent_activity_weight total_catches : ℝ))

/-- Modelled from the spec: `recent_activity_modifier` as §4.5/§4.8 of the
spec words it — "sum base=4 × quantity × 0.75^hours_ago; cap at +10; then
multiply by confidence weight" — i.e. the cap applied BEFORE the confidence
weight.  Kept for comparison with `calculate_recent_activity_modifier`,
which weights first and caps second. -/
noncomputable def spec_recent_activity_modifier (catches : List RecentCatch)
    (species zone_id : String) (total_catches : ℕ) : ℝ :=
  let recent := catches.filter fun c =>
    c.species == species && c.zone_id == zone_id && decide (c.hoursAgo ≤ 6)
  let score := recent.foldl (fun acc c => acc + recent_catch_value c) 0
  min 10 score * (recent_activity_weight total_catches : ℝ)

/-- `is_prey_species` (species_behavior_profiles.py lines 602–609). -/
def is_prey_species (species_key : String) : Bool :=
  ["speckled_trout", "white_trout", "menhaden", "mullet", "live_shrimp"].contains
    species_key

/-- A `predator_logs` row (schemas.py lines 224–235) as seen by the
predator modifier: its zone and its age in hours relative to "now". -/
structure PredatorLogRow where
  zone : String
  hoursAgo : ℚ
deriving DecidableEq

/-- `calculate_predator_modifier` (hyperlocal_scoring.py lines 390–427).
Non-prey species get 0.  The query keeps the zone's logs within the 4-hour
cutoff; when none remain the result is 0; otherwise the most recent log
(the one with the least `hoursAgo`) sets the linearly decayed penalty
`-8 * max(0, 1 - hours_ago / 4)`. -/
def calculate_predator_modifier (logs : List PredatorLogRow)
    (species zone_id : String) : ℚ :=
  if !is_prey_species species then 0
  else
    let hs := (logs.filter fun p => p.zone == zone_id && decide (p.hoursAgo ≤ 4)).map
      fun p => p.hoursAgo
    match hs with
    | [] => 0
    | h0 :: rest => -8 * max 0 (1 - rest.foldl min h0 / 4)

/-! ## Periodic score recalculation (app/scheduler.py lines 66–138) -/

/-- `TIER_1_SPECIES` (app/rules/species_tiers.py lines 8–14). -/
def TIER_1_SPECIES : List String :=
  ["speckled_trout", "redfish", "flounder", "sheepshead", "black_drum"]

/-- The prey list hard-coded inside `periodic_score_recalculation`
(scheduler.py line 110) — four species, without `live_shrimp`. -/
def scheduler_prey_species : List String :=
  ["speckled_trout", "white_trout", "menhaden", "mullet"]

/-- The five zones used by the scheduler's fallback (scheduler.py
line 118). -/
def scheduler_zones : List String :=
  ["Zone 1", "Zone 2", "Zone 3", "Zone 4", "Zone 5"]

/-- The pair-selection step of `periodic_score_recalculation` (scheduler.py
lines 84–121).  Inputs are the three distinct-query results: the (species,
zone) pairs with catches in the last 6 hours, the zones with bait logs in
the last 6 hours, and the zones with predator logs in the last 6 hours.
The bait-zone list is computed by the code (lines 93–95) but never added to
`pairs_to_recalc`.  When the selection is empty the fallback recalculates
every Tier 1 species in every zone.  For each selected pair the job then
runs `recalculate_bite_score` and `update_species_zone_tip`. -/
def periodic_recalc_pairs (recent_catch_pairs : List (String × String))
    (_recent_bait_zones recent_predator_zones : List String) :
    List (String × String) :=
  let base := recent_catch_pairs ++
    recent_predator_zones.flatMap fun z => scheduler_prey_species.map fun s => (s, z)
  if base.isEmpty then
    TIER_1_SPECIES.flatMap fun s => scheduler_zones.map fun z => (s, z)
  else base

/-! ## Invariants -/

/-- The documented `rig_effects` weight law: `weight`
equals `min(3, log(success_count + 1))`. -/
def rig_weight_inv (r : RigEffect) : Prop :=
  r.weight = min 3 (Real.log ((r.success_count : ℝ) + 1))

/-- The documented `zone_condition_effects` weight law, with cap 4. -/
def zce_weight_inv (r : ZoneConditionEffect) : Prop :=
  r.weight = min 4 (Real.log ((r.success_count : ℝ) + 1))

/-- The documented `rig_condition_effects` weight law, with cap 4. -/
def rce_weight_inv (r : RigConditionEffect) : Prop :=
  r.weight = min 4 (Real.log ((r.success_count : ℝ) + 1))

/-! ## Helper lemmas -/

theorem foldl_add_eq_sum {α : Type} (f : α → ℝ) :
    ∀ (l : List α) (a : ℝ), l.foldl (fun acc c => acc + f c) a = a + (l.map f).sum := by
  intro l
  induction l with
  | nil => intro a; simp
  | cons x xs ih => intro a; simp [ih, add_assoc]

theorem foldl_min_le_init : ∀ (l : List ℚ) (a : ℚ), l.foldl min a ≤ a := by
  intro l
  induction l with
  | nil => intro a; simp
  | cons x xs ih =>
    intro a
    calc (x :: xs).foldl min a = xs.foldl min (min a x) := rfl
    _ ≤ min a x := ih (min a x)
    _ ≤ a := min_le_left a x

theorem foldl_min_le_of_mem :
    ∀ (l : List ℚ) (a x : ℚ), x ∈ l → l.foldl min a ≤ x := by
  intro l
  induction l with
  | nil => intro a x hx; simp at hx
  | cons y ys ih =>
    intro a x hx
    rcases List.mem_cons.mp hx with h | h
    · subst h
      calc (x :: ys).foldl min a = ys.foldl min (min a x) := rfl
      _ ≤ min a x := foldl_min_le_init ys (min a x)
      _ ≤ x := min_le_right a x
    · exact ih (min a y) x h

theorem foldl_min_eq_init_or_mem :
    ∀ (l : List ℚ) (a : ℚ), l.foldl min a = a ∨ l.foldl min a ∈ l := by
  intro l
  induction l with
  | nil => intro a; exact Or.inl rfl
  | cons y ys ih =>
    intro a
    rcases ih (min a y) with h | h
    · rcases min_choice a y with h2 | h2
      · exact Or.inl (by rw [List.foldl_cons, h, h2])
      · exact Or.inr (by rw [List.foldl_cons, h, h2]; exact List.mem_cons_self y ys)
    · exact Or.inr (List.mem_cons_of_mem y h)

theorem find?_map_upsert {α : Type} (p : α → Bool) (new : α) (hnew : p new = true) :
    ∀ l : List α, (l.find? p).isSome →
      (l.map fun x => if p x then new else x).find? p = some new := by
  intro l
  induction l with
  | nil => intro h; simp [List.find?] at h
  | cons x xs ih =>
    intro h
    by_cases hx : p x = true
    · simp [hx, List.find?, hnew]
    · have hx2 : p x = false := by simp [hx]
      have h2 : (xs.find? p).isSome := by
        simpa [List.find?, hx2] using h
      simpa [List.find?, hx2] using ih h2

theorem find?_append_single {α : Type} (p : α → Bool) (new : α) (hnew : p new = true) :
    ∀ l : List α, l.find? p = none → (l ++ [new]).find? p = some new := by
  intro l
  induction l with
  | nil => intro _; simp [List.find?, hnew]
  | cons x xs ih =>
    intro h
    have hx : p x = false := by
      cases hpx : p x
      · rfl
      · simp [List.find?, hpx] at h
    have h2 : xs.find? p = none := by simpa [List.find?, hx] using h
    simpa [List.find?, hx] using ih h2

/-! ## Claims -/

/-- C4: for a pair with at least 50 catches and a cached score, a single
non-forced recompute with raw score in [0, 100] produces exactly
`old * (1 - w) + raw * w` with `w = get_smoothing_weight N`, and the score
moves by at most 15% of the distance to the raw score. -/
theorem high_count_smoothing_bound (n : ℕ) (old raw : ℚ)
    (hn : 50 ≤ n) (h0 : 0 ≤ old) (h1 : old ≤ 100) (h2 : 0 ≤ raw) (h3 : raw ≤ 100) :
    clamp_score (smoothed_score (some old) raw n false) =
      old * (1 - get_smoothing_weight n) + raw * get_smoothing_weight n ∧
    |clamp_score (smoothed_score (some old) raw n false) - old| ≤
      3/20 * |raw - old| := by
  have hn10 : ¬ n < 10 := by omega
  have hn50 : ¬ n < 50 := by omega
  have hw : get_smoothing_weight n = 1/10 + (100 - min (n : ℚ) 100) / 1000 := by
    simp [get_smoothing_weight, hn10, hn50]
  have hcast : (50 : ℚ) ≤ (n : ℚ) := by exact_mod_cast hn
  have hminlb : (50 : ℚ) ≤ min (n : ℚ) 100 := le_min hcast (by norm_num)
  have hminub : min (n : ℚ) 100 ≤ 100 := min_le_right _ _
  have hwub : get_smoothing_weight n ≤ 3/20 := by rw [hw]; linarith
  have hwlb : 0 < get_smoothing_weight n := by rw [hw]; linarith
  set w := get_smoothing_weight n with hwdef
  have hw1 : w ≤ 1 := by linarith
  have hmid0 : 0 ≤ old * (1 - w) + raw * w := by nlinarith
  have hmid1 : old * (1 - w) + raw * w ≤ 100 := by nlinarith
  have heq : clamp_score (smoothed_score (some old) raw n false) =
      old * (1 - w) + raw * w := by
    simp only [smoothed_score, clamp_score]
    rw [min_eq_right hmid1, max_eq_right hmid0]
  refine ⟨heq, ?_⟩
  rw [heq]
  have hdiff : old * (1 - w) + raw * w - old = w * (raw - old) := by ring
  rw [hdiff, abs_mul, abs_of_pos hwlb]
  have habs : |raw - old| ≥ 0 := abs_nonneg _
  nlinarith

/-- C4 witness: concrete instance with N = 50, old score 60, raw score
100: the new score is 66 and moves by 6 ≤ 0.15 · 40. -/
theorem high_count_smoothing_bound_witness :
    clamp_score (smoothed_score (some 60) 100 50 false) =
      60 * (1 - get_smoothing_weight 50) + 100 * get_smoothing_weight 50 ∧
    |clamp_score (smoothed_score (some 60) 100 50 false) - 60| ≤
      3/20 * |(100 : ℚ) - 60| :=
  high_count_smoothing_bound 50 60 100 (by norm_num) (by norm_num) (by norm_num)
    (by norm_num) (by norm_num)

/-- C8: the cached rating and confidence are the deterministic threshold
functions of the clamped score and the pair catch count: Poor or score at
most 20, Fair up to 40, Good up to 60, Great up to 80, Excellent above;
confidence low below 10 catches, medium below 50, high otherwise — in
particular exactly 10 catches gives medium — and every row the recompute
writes carries exactly those derived values. -/
theorem rating_confidence_thresholds :
    (∀ s : ℚ, s ≤ 20 → get_score_rating s = "Poor") ∧
    (∀ s : ℚ, 20 < s → s ≤ 40 → get_score_rating s = "Fair") ∧
    (∀ s : ℚ, 40 < s → s ≤ 60 → get_score_rating s = "Good") ∧
    (∀ s : ℚ, 60 < s → s ≤ 80 → get_score_rating s = "Great") ∧
    (∀ s : ℚ, 80 < s → get_score_rating s = "Excellent") ∧
    (∀ n : ℕ, n < 10 → get_confidence_level n = "low") ∧
    (∀ n : ℕ, 10 ≤ n → n < 50 → get_confidence_level n = "medium") ∧
    (∀ n : ℕ, 50 ≤ n → get_confidence_level n = "high") ∧
    get_confidence_level 10 = "medium" ∧
    (∀ (db : DB) (species zone_id : String) (raw_score : ℚ) (force_recalc : Bool)
      (b : BiteScore),
      ((recalculate_bite_score db species zone_id raw_score force_recalc).bite_scores.find?
        fun x => biteScoreMatches x species zone_id) = some b →
      b.rating = get_score_rating b.score ∧
      b.confidence = get_confidence_level (catch_count db species zone_id)) := by
  refine ⟨?_, ?_, ?_, ?_, ?_, ?_, ?_, ?_, ?_, ?_⟩
  · intro s h; simp [get_score_rating, h]
  · intro s h1 h2; simp [get_score_rating, h2, not_le.mpr h1]
  · intro s h1 h2; simp [get_score_rating, h2, not_le.mpr h1,
      not_le.mpr (lt_of_le_of_lt (by norm_num) h1 : (20 : ℚ) < s)]
  · intro s h1 h2
    simp [get_score_rating, h2, not_le.mpr h1,
      not_le.mpr (lt_of_le_of_lt (by norm_num) h1 : (20 : ℚ) < s),
      not_le.mpr (lt_of_le_of_lt (by norm_num) h1 : (40 : ℚ) < s)]
  · intro s h1
    simp [get_score_rating, not_le.mpr h1,
      not_le.mpr (lt_of_le_of_lt (by norm_num) h1 : (20 : ℚ) < s),
      not_le.mpr (lt_of_le_of_lt (by norm_num) h1 : (40 : ℚ) < s),
      not_le.mpr (lt_of_le_of_lt (by norm_num) h1 : (60 : ℚ) < s)]
  · intro n h; simp [get_confidence_level, h]
  · intro n h1 h2; simp [get_confidence_level, h2, Nat.not_lt.mpr h1]
  · intro n h
    simp [get_confidence_level, Nat.not_lt.mpr h,
      Nat.not_lt.mpr (le_trans (by norm_num) h : 10 ≤ n)]
  · simp [get_confidence_level]
  · intro db species zone_id raw_score force_recalc b hfind
    have hrow : biteScoreMatches
        { species := species, zone_id := zone_id,
          score := clamp_score (smoothed_score
            (((db.bite_scores.find? fun x => biteScoreMatches x species zone_id).map
              (·.score))) raw_score (catch_count db species zone_id) force_recalc),
          rating := get_score_rating (clamp_score (smoothed_score
            (((db.bite_scores.find? fun x => biteScoreMatches x species zone_id).map
              (·.score))) raw_score (catch_count db species zone_id) force_recalc)),
          confidence := get_confidence_level (catch_count db species zone_id) }
        species zone_id = true := by
      simp [biteScoreMatches]
    rcases hold : db.bite_scores.find? fun x => biteScoreMatches x species zone_id with
      _ | oldrow
    · rw [recalculate_bite_score] at hfind
      simp only [hold] at hfind
      rw [find?_append_single _ _ (by simp [biteScoreMatches]) _ hold] at hfind
      cases hfind
      exact ⟨rfl, rfl⟩
    · rw [recalculate_bite_score] at hfind
      simp only [hold] at hfind
      rw [find?_map_upsert _ _ (by simp [biteScoreMatches]) _
        (by rw [hold]; rfl)] at hfind
      cases hfind
      exact ⟨rfl, rfl⟩

/-- C8 witness: concrete threshold values, the medium confidence at
exactly 10 catches, and a concrete recompute whose cached row carries the
derived rating and confidence. -/
theorem rating_confidence_thresholds_witness :
    get_score_rating 15 = "Poor" ∧ get_score_rating 30 = "Fair" ∧
    get_score_rating 50 = "Good" ∧ get_score_rating 70 = "Great" ∧
    get_score_rating 90 = "Excellent" ∧ get_confidence_level 9 = "low" ∧
    get_confidence_level 10 = "medium" ∧ get_confidence_level 50 = "high" ∧
    ((⟨"speckled_trout", "Zone 3", 50, "Good", "low"⟩ : BiteScore).rating =
        get_score_rating 50 ∧
      (⟨"speckled_trout", "Zone 3", 50, "Good", "low"⟩ : BiteScore).confidence =
        get_confidence_level (catch_count emptyDB "speckled_trout" "Zone 3")) :=
  ⟨rating_confidence_thresholds.1 15 (by norm_num),
   rating_confidence_thresholds.2.1 30 (by norm_num) (by norm_num),
   rating_confidence_thresholds.2.2.1 50 (by norm_num) (by norm_num),
   rating_confidence_thresholds.2.2.2.1 70 (by norm_num) (by norm_num),
   rating_confidence_thresholds.2.2.2.2.1 90 (by norm_num),
   rating_confidence_thresholds.2.2.2.2.2.1 9 (by norm_num),
   rating_confidence_thresholds.2.2.2.2.2.2.2.2.1,
   rating_confidence_thresholds.2.2.2.2.2.2.2.1 50 (by norm_num),
   rating_confidence_thresholds.2.2.2.2.2.2.2.2.2 emptyDB "speckled_trout" "Zone 3"
     50 false ⟨"speckled_trout", "Zone 3", 50, "Good", "low"⟩ (by decide)⟩

/-- C9 counterexample: with only bait activity in the last 6 hours (a bait
log in Zone 2, no catches, no predators), the periodic job behaves exactly
as if there were no activity at all: it falls back to recalculating every
Tier 1 species in every zone — in particular the pair (speckled_trout,
Zone 1), whose zone has no activity of any kind — instead of selecting
pairs for the bait zone as the claim states. -/
theorem periodic_recalc_bait_ignored_counterexample :
    periodic_recalc_pairs [] ["Zone 2"] [] = periodic_recalc_pairs [] [] [] ∧
    ("speckled_trout", "Zone 1") ∈ periodic_recalc_pairs [] ["Zone 2"] [] ∧
    "Zone 1" ≠ "Zone 2" := by
  refine ⟨rfl, ?_, by decide⟩
  decide

/-- C9 (amended): the periodic recalculation selects exactly the pairs with
recent catches plus the four hard-coded prey species for every zone with
recent predator activity; recent bait zones are queried but contribute
nothing (the selection is invariant under the bait-zone input); when
catches and predator zones are both empty it falls back to all Tier 1
species across the five zones. -/
theorem periodic_recalc_selection_characterization :
    (∀ (c : List (String × String)) (b p : List String),
      periodic_recalc_pairs c b p = periodic_recalc_pairs c [] p) ∧
    (∀ (c : List (String × String)) (b p : List String) (x : String × String),
      x ∈ periodic_recalc_pairs c b p ↔
        if c = [] ∧ p = [] then x.1 ∈ TIER_1_SPECIES ∧ x.2 ∈ scheduler_zones
        else x ∈ c ∨ (x.1 ∈ scheduler_prey_species ∧ x.2 ∈ p)) := by
  constructor
  · intro c b p; rfl
  · intro c b p x
    by_cases hcp : c = [] ∧ p = []
    · rcases hcp with ⟨hc, hp⟩
      subst hc; subst hp
      rw [if_pos ⟨rfl, rfl⟩]
      simp only [periodic_recalc_pairs, List.nil_append, List.flatMap_nil,
        List.isEmpty_nil, if_true]
      constructor
      · intro hx
        rcases List.mem_flatMap.mp hx with ⟨s, hs, hxs⟩
        rcases List.mem_map.mp hxs with ⟨z, hz, hzx⟩
        rw [← hzx]
        exact ⟨hs, hz⟩
      · intro hx
        refine List.mem_flatMap.mpr ⟨x.1, hx.1, List.mem_map.mpr ⟨x.2, hx.2, ?_⟩⟩
        exact Prod.mk.eta
    · rw [if_neg hcp]
      have hne : (c ++ p.flatMap fun z =>
          scheduler_prey_species.map fun s => (s, z)) ≠ [] := by
        intro h
        rcases List.append_eq_nil.mp h with ⟨hc, hfm⟩
        apply hcp
        refine ⟨hc, ?_⟩
        cases p with
        | nil => rfl
        | cons z zs => simp [scheduler_prey_species] at hfm
      have hbase : (c ++ p.flatMap fun z =>
          scheduler_prey_species.map fun s => (s, z)).isEmpty = false := by
        simpa [List.isEmpty_iff] using hne
      simp only [periodic_recalc_pairs, hbase, Bool.false_eq_true, if_false]
      constructor
      · intro hx
        rcases List.mem_append.mp hx with h | h
        · exact Or.inl h
        · rcases List.mem_flatMap.mp h with ⟨z, hz, hxz⟩
          rcases List.mem_map.mp hxz with ⟨s, hs, hsx⟩
          rw [← hsx]
          exact Or.inr ⟨hs, hz⟩
      · intro hx
        rcases hx with h | ⟨h1, h2⟩
        · exact List.mem_append.mpr (Or.inl h)
        · refine List.mem_append.mpr (Or.inr (List.mem_flatMap.mpr
            ⟨x.2, h2, List.mem_map.mpr ⟨x.1, h1, ?_⟩⟩))
          exact Prod.mk.eta

/-- C10 counterexample: a tide-stage string can contain "high" and still
not map to the slack band, because the incoming/rising keywords are
checked first — classify_tide "rising high" is "incoming", not "slack",
so the claim's "any tide-stage string containing high or low maps to
slack" fails as a universal statement. -/
theorem classify_tide_keyword_precedence_counterexample :
    strContains (lowerString "rising high") "high" = true ∧
    classify_tide (some "rising high") = "incoming" ∧
    "incoming" ≠ "slack" := by
  refine ⟨by decide, by decide, by decide⟩

/-- C10 (amended): classify_tide maps any tide-stage string containing
"high" or "low" (as well as "slack") to the band "slack" provided it
contains none of the incoming/rising/outgoing/falling keywords, which take
precedence; in particular the stage values "high", "low" and "slack"
produced by the snapshot pipeline all land in the slack band; "unknown" is
returned only for a missing or empty stage or one matching no keyword at
all. -/
theorem classify_tide_band_characterization :
    (∀ s : String,
      (strContains (lowerString s) "slack" || strContains (lowerString s) "high" ||
        strContains (lowerString s) "low") = true →
      strContains (lowerString s) "incoming" = false →
      strContains (lowerString s) "rising" = false →
      strContains (lowerString s) "outgoing" = false →
      strContains (lowerString s) "falling" = false →
      classify_tide (some s) = "slack") ∧
    classify_tide (some "high") = "slack" ∧
    classify_tide (some "low") = "slack" ∧
    classify_tide (some "slack") = "slack" ∧
    classify_tide none = "unknown" ∧
    classify_tide (some "") = "unknown" ∧
    (∀ s : String, classify_tide (some s) = "unknown" → s ≠ "" →
      strContains (lowerString s) "incoming" = false ∧
      strContains (lowerString s) "rising" = false ∧
      strContains (lowerString s) "outgoing" = false ∧
      strContains (lowerString s) "falling" = false ∧
      strContains (lowerString s) "slack" = false ∧
      strContains (lowerString s) "high" = false ∧
      strContains (lowerString s) "low" = false) := by
  refine ⟨?_, by decide, by decide, by decide, rfl, by decide, ?_⟩
  · intro s hband hinc hris hout hfal
    have hse : (s == "") = false := by
      cases hs : s == ""
      · rfl
      · exfalso
        have : s = "" := by simpa using hs
        subst this
        simp [strContains, charsStartWith, lowerString] at hband
    simp only [classify_tide, hse, Bool.false_eq_true, if_false, hinc, hris, hout, hfal,
      Bool.or_self, hband, if_true]
  · intro s hs hne
    have hse : (s == "") = false := by
      cases h : s == ""
      · rfl
      · exact absurd (by simpa using h) hne
    simp only [classify_tide, hse, Bool.false_eq_true, if_false] at hs
    by_cases h1 : (strContains (lowerString s) "incoming" ||
        strContains (lowerString s) "rising") = true
    · rw [if_pos h1] at hs; exact absurd hs (by decide)
    · rw [if_neg h1] at hs
      by_cases h2 : (strContains (lowerString s) "outgoing" ||
          strContains (lowerString s) "falling") = true
      · rw [if_pos h2] at hs; exact absurd hs (by decide)
      · rw [if_neg h2] at hs
        by_cases h3 : (strContains (lowerString s) "slack" ||
            strContains (lowerString s) "high" ||
            strContains (lowerString s) "low") = true
        · rw [if_pos h3] at hs; exact absurd hs (by decide)
        · simp only [Bool.or_eq_true, not_or, Bool.not_eq_true] at h1 h2 h3
          exact ⟨h1.1, h1.2, h2.1, h2.2, h3.1.1, h3.1.2, h3.2⟩

/-- C10 witness: the amended slack rule applied at the concrete stage
value "high". -/
theorem classify_tide_band_characterization_witness :
    classify_tide (some "high") = "slack" :=
  classify_tide_band_characterization.1 "high" (by decide) (by decide) (by decide)
    (by decide) (by decide)

/-- C7: non-prey species get predator modifier 0; with no predator log of
the zone within the last 4 hours the modifier is 0; otherwise it equals
`-8 * max(0, 1 - hours_ago / 4)` computed from the most recent predator
log in the zone (the one with the least age). -/
theorem predator_modifier_spec :
    (∀ (logs : List PredatorLogRow) (species zone_id : String),
      is_prey_species species = false →
      calculate_predator_modifier logs species zone_id = 0) ∧
    (∀ (logs : List PredatorLogRow) (species zone_id : String),
      (logs.filter fun p => p.zone == zone_id && decide (p.hoursAgo ≤ 4)) = [] →
      calculate_predator_modifier logs species zone_id = 0) ∧
    (∀ (logs : List PredatorLogRow) (species zone_id : String) (h : ℚ),
      is_prey_species species = true →
      h ∈ (logs.filter fun p => p.zone == zone_id && decide (p.hoursAgo ≤ 4)).map
        (fun p => p.hoursAgo) →
      (∀ h2 ∈ (logs.filter fun p => p.zone == zone_id && decide (p.hoursAgo ≤ 4)).map
        (fun p => p.hoursAgo), h ≤ h2) →
      calculate_predator_modifier logs species zone_id = -8 * max 0 (1 - h / 4)) := by
  refine ⟨?_, ?_, ?_⟩
  · intro logs species zone_id hprey
    simp [calculate_predator_modifier, hprey]
  · intro logs species zone_id hfilter
    by_cases hprey : is_prey_species species
    · simp [calculate_predator_modifier, hprey, hfilter]
    · simp [calculate_predator_modifier, hprey]
  · intro logs species zone_id h hprey hmem hlb
    rw [calculate_predator_modifier]
    simp only [hprey, Bool.not_true, Bool.false_eq_true, if_false]
    rcases hhs : (logs.filter fun p => p.zone == zone_id && decide (p.hoursAgo ≤ 4)).map
        (fun p => p.hoursAgo) with _ | ⟨h0, rest⟩
    · rw [hhs] at hmem; simp at hmem
    · rw [hhs] at hmem hlb
      have hub : rest.foldl min h0 ≤ h := by
        rcases List.mem_cons.mp hmem with he | he
        · exact he ▸ foldl_min_le_init rest h0
        · exact foldl_min_le_of_mem rest h0 h he
      have hlb2 : h ≤ rest.foldl min h0 := by
        rcases foldl_min_eq_init_or_mem rest h0 with he | he
        · rw [he]; exact hlb h0 (List.mem_cons_self h0 rest)
        · exact hlb _ (List.mem_cons_of_mem h0 he)
      rw [hhs]
      show -8 * (0 ⊔ (1 - rest.foldl min h0 / 4)) = -8 * (0 ⊔ (1 - h / 4))
      rw [le_antisymm hub hlb2]

/-- C7 witness: spec scenario 3 — a predator log in Zone 3 one hour ago
gives speckled_trout in Zone 3 a modifier of −8 · (1 − 1/4) = −6. -/
theorem predator_modifier_spec_witness :
    calculate_predator_modifier [{ zone := "Zone 3", hoursAgo := 1 }]
      "speckled_trout" "Zone 3" = -6 := by
  have h := predator_modifier_spec.2.2 [{ zone := "Zone 3", hoursAgo := 1 }]
    "speckled_trout" "Zone 3" 1 (by decide) (by decide) (by decide)
  rw [h]
  rw [show (1 : ℚ) - 1 / 4 = 3/4 by norm_num,
    max_eq_right (by norm_num : (0 : ℚ) ≤ 3/4)]
  norm_num

theorem recent_catch_value_nonneg (c : RecentCatch) : 0 ≤ recent_catch_value c := by
  unfold recent_catch_value
  have h1 : (0 : ℝ) ≤ (3/4 : ℝ) ^ (c.hoursAgo : ℝ) :=
    Real.rpow_nonneg (by norm_num) _
  positivity

/-- C2 counterexample: one catch of quantity 4 logged just now, for a pair
with no history (confidence weight 0.3).  The decayed sum is 16; the code
weights first and caps second, giving min(10, 16·0.3) = 4.8, while the
claim's order — cap at 10, then weight — gives 10·0.3 = 3. -/
theorem recent_activity_cap_order_counterexample :
    calculate_recent_activity_modifier
      [{ species := "speckled_trout", zone_id := "Zone 3", hoursAgo := 0, quantity := 4 }]
      "speckled_trout" "Zone 3" 0 = 24/5 ∧
    spec_recent_activity_modifier
      [{ species := "speckled_trout", zone_id := "Zone 3", hoursAgo := 0, quantity := 4 }]
      "speckled_trout" "Zone 3" 0 = 3 ∧
    (24/5 : ℝ) ≠ 3 := by
  have hval : recent_catch_value
      { species := "speckled_trout", zone_id := "Zone 3", hoursAgo := 0, quantity := 4 } =
      16 := by
    unfold recent_catch_value
    norm_num [Real.rpow_natCast]
  have hfilter :
      ([{ species := "speckled_trout", zone_id := "Zone 3", hoursAgo := 0,
          quantity := 4 }].filter fun c : RecentCatch =>
        c.species == "speckled_trout" && c.zone_id == "Zone 3" &&
          decide (c.hoursAgo ≤ 6)) =
      [{ species := "speckled_trout", zone_id := "Zone 3", hoursAgo := 0,
         quantity := 4 }] := by decide
  refine ⟨?_, ?_, by norm_num⟩
  · unfold calculate_recent_activity_modifier
    rw [hfilter]
    simp only [List.foldl_cons, List.foldl_nil, zero_add, hval]
    rw [show recent_activity_weight 0 = 3/10 from rfl]
    rw [min_eq_right (by push_cast; norm_num : (16 : ℝ) * ((3/10 : ℚ) : ℝ) ≤ 10)]
    push_cast
    norm_num
  · unfold spec_recent_activity_modifier
    rw [hfilter]
    simp only [List.foldl_cons, List.foldl_nil, zero_add, hval]
    rw [show recent_activity_weight 0 = 3/10 from rfl]
    rw [min_eq_left (by norm_num : (10 : ℝ) ≤ 16)]
    push_cast
    norm_num

/-- C2 (amended): the recent-activity modifier equals the decayed sum
4·quantity·0.75^hours_ago over the catches of the pair in the 6-hour
window, multiplied by the confidence weight FIRST and capped at +10 second
(so the weighted sum, not the raw sum, is what the cap applies to); the
confidence weight is 0.3 below 10 historical catches, 0.6 below 50, 1.0
otherwise; the result is always in [0, 10]. -/
theorem recent_activity_weight_before_cap (catches : List RecentCatch)
    (species zone_id : String) (total_catches : ℕ) :
    calculate_recent_activity_modifier catches species zone_id total_catches =
      min 10 (((catches.filter fun c => c.species == species && c.zone_id == zone_id &&
          decide (c.hoursAgo ≤ 6)).map recent_catch_value).sum *
        (recent_activity_weight total_catches : ℝ)) ∧
    0 ≤ calculate_recent_activity_modifier catches species zone_id total_catches ∧
    calculate_recent_activity_modifier catches species zone_id total_catches ≤ 10 ∧
    (total_catches < 10 → recent_activity_weight total_catches = 3/10) ∧
    (10 ≤ total_catches → total_catches < 50 →
      recent_activity_weight total_catches = 6/10) ∧
    (50 ≤ total_catches → recent_activity_weight total_catches = 1) := by
  have hfold : calculate_recent_activity_modifier catches species zone_id total_catches =
      min 10 (((catches.filter fun c => c.species == species && c.zone_id == zone_id &&
          decide (c.hoursAgo ≤ 6)).map recent_catch_value).sum *
        (recent_activity_weight total_catches : ℝ)) := by
    unfold calculate_recent_activity_modifier
    simp only [foldl_add_eq_sum recent_catch_value, zero_add]
  have hsum : 0 ≤ ((catches.filter fun c => c.species == species &&
      c.zone_id == zone_id && decide (c.hoursAgo ≤ 6)).map recent_catch_value).sum := by
    apply List.sum_nonneg
    intro x hx
    rcases List.mem_map.mp hx with ⟨c, _, hc⟩
    exact hc ▸ recent_catch_value_nonneg c
  have hwpos : (0 : ℝ) ≤ (recent_activity_weight total_catches : ℝ) := by
    unfold recent_activity_weight
    split
    · norm_num
    · split
      · norm_num
      · norm_num
  refine ⟨hfold, ?_, ?_, ?_, ?_, ?_⟩
  · rw [hfold]
    exact le_min (by norm_num) (mul_nonneg hsum hwpos)
  · rw [hfold]
    exact min_le_left _ _
  · intro h; simp [recent_activity_weight, h]
  · intro h1 h2; simp [recent_activity_weight, h2, Nat.not_lt.mpr h1]
  · intro h
    simp [recent_activity_weight, Nat.not_lt.mpr h,
      Nat.not_lt.mpr (le_trans (by norm_num) h : 10 ≤ total_catches)]

/-- C2 witness: applying the amended statement at a concrete empty window
and 5 historical catches. -/
theorem recent_activity_weight_before_cap_witness :
    0 ≤ calculate_recent_activity_modifier [] "speckled_trout" "Zone 2" 5 ∧
    calculate_recent_activity_modifier [] "speckled_trout" "Zone 2" 5 ≤ 10 ∧
    recent_activity_weight 5 = 3/10 :=
  ⟨(recent_activity_weight_before_cap [] "speckled_trout" "Zone 2" 5).2.1,
   (recent_activity_weight_before_cap [] "speckled_trout" "Zone 2" 5).2.2.1,
   (recent_activity_weight_before_cap [] "speckled_trout" "Zone 2" 5).2.2.2.1
     (by norm_num)⟩

/-- C5: each learning updater preserves the capped-logarithm weight law of
every row — after any update, every `rig_effects` row satisfies
`weight = min(3, ln(success_count + 1))` and every condition-effect row
satisfies the same law with cap 4 (each updater recomputes the weight of
the row it writes from the new count, and leaves other rows untouched). -/
theorem learning_weight_log_invariant :
    (∀ (t : List RigEffect) (species zone_id rig_type : String),
      (∀ r ∈ t, rig_weight_inv r) →
      ∀ r ∈ (update_rig_effect t species zone_id rig_type).1, rig_weight_inv r) ∧
    (∀ (t : List ZoneConditionEffect) (species zone_id : String)
      (conditions : Conditions) (weight_multiplier : ℚ),
      (∀ r ∈ t, zce_weight_inv r) →
      ∀ r ∈ (update_zone_condition_effect t species zone_id conditions
        weight_multiplier).1, zce_weight_inv r) ∧
    (∀ (t : List RigConditionEffect) (species rig_type : String)
      (conditions : Conditions) (weight_multiplier : ℚ),
      (∀ r ∈ t, rce_weight_inv r) →
      ∀ r ∈ (update_rig_condition_effect t species rig_type conditions
        weight_multiplier).1, rce_weight_inv r) := by
  refine ⟨?_, ?_, ?_⟩
  · intro t species zone_id rig_type ht r hr
    rw [update_rig_effect] at hr
    by_cases hguard : (rig_type == "" || rig_type == "unknown") = true
    · rw [if_pos hguard] at hr; exact ht r hr
    · rw [if_neg hguard] at hr
      rcases hfind : t.find? (fun x => rigEffectMatches x species zone_id rig_type) with
        _ | old
      · rw [hfind] at hr
        rcases List.mem_append.mp hr with h | h
        · exact ht r h
        · rcases List.mem_singleton.mp h with rfl
          exact rfl
      · rw [hfind] at hr
        rcases List.mem_map.mp hr with ⟨x, hx, hxr⟩
        by_cases hm : rigEffectMatches x species zone_id rig_type = true
        · rw [if_pos hm] at hxr
          rw [← hxr]
          exact rfl
        · rw [if_neg hm] at hxr
          exact hxr ▸ ht x hx
  · intro t species zone_id conditions weight_multiplier ht r hr
    rw [update_zone_condition_effect] at hr
    by_cases hguard : (classify_tide conditions.tide_stage == "unknown") = true
    · rw [if_pos hguard] at hr; exact ht r hr
    · rw [if_neg hguard] at hr
      rcases hfind : t.find? (fun x => zceMatches x species zone_id
          (classify_tide conditions.tide_stage) (classify_clarity conditions.clarity)
          (classify_wind conditions.wind_direction species)
          (classify_current conditions.current_speed)) with _ | old
      · rw [hfind] at hr
        rcases List.mem_append.mp hr with h | h
        · exact ht r h
        · rcases List.mem_singleton.mp h with rfl
          exact rfl
      · rw [hfind] at hr
        rcases List.mem_map.mp hr with ⟨x, hx, hxr⟩
        by_cases hm : zceMatches x species zone_id
            (classify_tide conditions.tide_stage) (classify_clarity conditions.clarity)
            (classify_wind conditions.wind_direction species)
            (classify_current conditions.current_speed) = true
        · rw [if_pos hm] at hxr
          rw [← hxr]
          exact rfl
        · rw [if_neg hm] at hxr
          exact hxr ▸ ht x hx
  · intro t species rig_type conditions weight_multiplier ht r hr
    rw [update_rig_condition_effect] at hr
    by_cases hguard0 : (rig_type == "" || rig_type == "unknown") = true
    · rw [if_pos hguard0] at hr; exact ht r hr
    · rw [if_neg hguard0] at hr
      by_cases hguard : (classify_tide conditions.tide_stage == "unknown") = true
      · rw [if_pos hguard] at hr; exact ht r hr
      · rw [if_neg hguard] at hr
        rcases hfind : t.find? (fun x => rceMatches x species rig_type
            (classify_tide conditions.tide_stage)
            (classify_clarity conditions.clarity)) with _ | old
        · rw [hfind] at hr
          rcases List.mem_append.mp hr with h | h
          · exact ht r h
          · rcases List.mem_singleton.mp h with rfl
            exact rfl
        · rw [hfind] at hr
          rcases List.mem_map.mp hr with ⟨x, hx, hxr⟩
          by_cases hm : rceMatches x species rig_type
              (classify_tide conditions.tide_stage)
              (classify_clarity conditions.clarity) = true
          · rw [if_pos hm] at hxr
            rw [← hxr]
            exact rfl
          · rw [if_neg hm] at hxr
            exact hxr ▸ ht x hx

/-- C5 witness: each updater applied to an empty table (whose rows all
satisfy the law vacuously) yields the single freshly created row, which
satisfies the law. -/
theorem learning_weight_log_invariant_witness :
    rig_weight_inv
      ⟨"redfish", "Zone 2", "jig", (1 : ℚ), min 3 (Real.log (((1 : ℚ) : ℝ) + 1))⟩ ∧
    zce_weight_inv
      ⟨"redfish", "Zone 2", "incoming", "clean", "neutral", "low", (1 : ℚ),
        min 4 (Real.log (((1 : ℚ) : ℝ) + 1))⟩ ∧
    rce_weight_inv
      ⟨"redfish", "jig", "incoming", "clean", (1 : ℚ),
        min 4 (Real.log (((1 : ℚ) : ℝ) + 1))⟩ := by
  refine ⟨?_, ?_, ?_⟩
  · exact learning_weight_log_invariant.1 [] "redfish" "Zone 2" "jig"
      (by intro r hr; simp at hr) _ (List.mem_singleton.mpr rfl)
  · exact learning_weight_log_invariant.2.1 [] "redfish" "Zone 2"
      { tide_stage := some "incoming", clarity := some "clean",
        wind_direction := none, current_speed := none } 1
      (by intro r hr; simp at hr) _ (List.mem_singleton.mpr rfl)
  · exact learning_weight_log_invariant.2.2 [] "redfish" "jig"
      { tide_stage := some "incoming", clarity := some "clean",
        wind_direction := none, current_speed := none } 1
      (by intro r hr; simp at hr) _ (List.mem_singleton.mpr rfl)

/-- C1 counterexample: a crab-trap catch (species blue_crab, rig crab_trap)
has weight_multiplier 0.15, yet a catch event run over a table holding an
existing (blue_crab, Zone 1, crab_trap) row with success_count 1 leaves
that row with success_count 2 — the rig update always adds 1, not the
multiplier, so the claimed new count 1 + 0.15 is wrong. -/
theorem rig_effect_multiplier_counterexample :
    condition_weight_of "blue_crab" (some "crab_trap") = 15/100 ∧
    ((log_catch
        { catches := [], rig_effects :=
            [⟨"blue_crab", "Zone 1", "crab_trap", (1 : ℚ), Real.log 2⟩],
          zone_condition_effects := [], rig_condition_effects := [],
          bite_scores := [] }
        ⟨"blue_crab", "Zone 1", none, none, none, none, none, some 1, none,
          some "crab_trap", false, false, none, none⟩
        ⟨some "incoming", some "clean", none, none⟩
        50 noFailures).1.rig_effects.map fun r => r.success_count) = [2] ∧
    (2 : ℚ) ≠ 1 + 15/100 := by
  refine ⟨rfl, ?_, by norm_num⟩
  have h : ((log_catch
      { catches := [], rig_effects :=
          [⟨"blue_crab", "Zone 1", "crab_trap", (1 : ℚ), Real.log 2⟩],
        zone_condition_effects := [], rig_condition_effects := [],
        bite_scores := [] }
      ⟨"blue_crab", "Zone 1", none, none, none, none, none, some 1, none,
        some "crab_trap", false, false, none, none⟩
      ⟨some "incoming", some "clean", none, none⟩
      50 noFailures).1.rig_effects.map fun r => r.success_count) = [(1 : ℚ) + 1] := rfl
  rw [h]
  norm_num

/-- C1 (amended): on every catch event carrying a rig type, the RigEffect
row for (species, zone_id, rig_type) is upserted with success_count
increased by 1 — regardless of the catch's weight_multiplier, which is
applied only to the condition-effect tables — and its weight recomputed as
min(3, ln(success_count + 1)); moreover the catch handler updates the
rig_effects table exactly by this multiplier-free upsert. -/
theorem rig_effect_increment_always_one :
    (∀ (t : List RigEffect) (species zone_id rig_type : String) (old : RigEffect),
      t.find? (fun r => rigEffectMatches r species zone_id rig_type) = some old →
      (rig_type == "" || rig_type == "unknown") = false →
      (update_rig_effect t species zone_id rig_type).2 =
        some ⟨old.species, old.zone_id, old.rig_type, old.success_count + 1,
          min 3 (Real.log (((old.success_count + 1 : ℚ) : ℝ) + 1))⟩) ∧
    (∀ (t : List RigEffect) (species zone_id rig_type : String),
      t.find? (fun r => rigEffectMatches r species zone_id rig_type) = none →
      (rig_type == "" || rig_type == "unknown") = false →
      (update_rig_effect t species zone_id rig_type).2 =
        some ⟨species, zone_id, rig_type, (1 : ℚ),
          min 3 (Real.log (((1 : ℚ) : ℝ) + 1))⟩) ∧
    (∀ (db : DB) (req : CatchCreate) (env : Conditions) (raw_score : ℚ)
      (rt : String),
      req.presentation = some rt → (rt == "") = false →
      (log_catch db req env raw_score noFailures).1.rig_effects =
        (update_rig_effect db.rig_effects req.species req.zone_id rt).1) := by
  refine ⟨?_, ?_, ?_⟩
  · intro t species zone_id rig_type old hfind hguard
    rw [update_rig_effect, if_neg (by simp [hguard]), hfind]
  · intro t species zone_id rig_type hfind hguard
    rw [update_rig_effect, if_neg (by simp [hguard]), hfind]
  · intro db req env raw_score rt hpres hrt
    rw [log_catch]
    simp only [noFailures, Bool.false_eq_true, if_false, hpres, hrt,
      recalculate_bite_score, mk_catch_row]

/-- C1 witness: a first catch on an empty rig table creates the row with
success_count 1 and weight min(3, ln 2). -/
theorem rig_effect_increment_always_one_witness :
    (update_rig_effect [] "speckled_trout" "Zone 3" "popping_cork").2 =
      some ⟨"speckled_trout", "Zone 3", "popping_cork", (1 : ℚ),
        min 3 (Real.log (((1 : ℚ) : ℝ) + 1))⟩ :=
  rig_effect_increment_always_one.2.1 [] "speckled_trout" "Zone 3" "popping_cork"
    rfl (by decide)

/-- C3 counterexample: the request model `CatchCreate` has no `rig_type`
field, so a body carrying `rig_type` (and no `presentation`) parses with
`presentation = none`; the handler sets `rig_type` from `presentation`
(main.py line 663) and skips the rig update — no RigEffect row is created,
although the Catch row is.  The claim's scenario (body field named
`rig_type`) therefore does not produce the claimed RigEffect row. -/
theorem post_catch_rig_type_field_counterexample :
    (log_catch emptyDB
      ⟨"speckled_trout", "Zone 3", none, none, none, none, none, some 1, none,
        none, false, false, none, none⟩
      ⟨some "incoming", some "clean", none, none⟩
      50 noFailures).1.rig_effects = [] ∧
    (log_catch emptyDB
      ⟨"speckled_trout", "Zone 3", none, none, none, none, none, some 1, none,
        none, false, false, none, none⟩
      ⟨some "incoming", some "clean", none, none⟩
      50 noFailures).1.catches.length = 1 := ⟨rfl, rfl⟩

/-- C3 (amended): starting from the empty database, a POST /catches whose
body carries species speckled_trout, zone Zone 3, quantity 1 and
presentation "jig" (the field that populates rig_type; the request model
has no rig_type field) creates exactly one Catch row, a RigEffect row
(speckled_trout, Zone 3, jig) with success_count 1 and weight
ln 2 ≈ 0.693, and afterwards a BiteScore row for (speckled_trout, Zone 3)
exists with confidence low — whatever environment and raw score the
recompute reads. -/
theorem post_catch_presentation_scenario (env : Conditions) (raw_score : ℚ) :
    (log_catch emptyDB
      ⟨"speckled_trout", "Zone 3", none, none, none, none, none, some 1, none,
        some "jig", false, false, none, none⟩
      env raw_score noFailures).1.catches.length = 1 ∧
    (log_catch emptyDB
      ⟨"speckled_trout", "Zone 3", none, none, none, none, none, some 1, none,
        some "jig", false, false, none, none⟩
      env raw_score noFailures).1.rig_effects =
      [⟨"speckled_trout", "Zone 3", "jig", (1 : ℚ), Real.log 2⟩] ∧
    ((log_catch emptyDB
      ⟨"speckled_trout", "Zone 3", none, none, none, none, none, some 1, none,
        some "jig", false, false, none, none⟩
      env raw_score noFailures).1.bite_scores.map fun b =>
        (b.species, b.zone_id, b.confidence)) =
      [("speckled_trout", "Zone 3", "low")] := by
  have hlog2 : min (3 : ℝ) (Real.log (((1 : ℚ) : ℝ) + 1)) = Real.log 2 := by
    have h2 : (((1 : ℚ) : ℝ) + 1) = 2 := by norm_num
    rw [h2]
    exact min_eq_right (by
      have := Real.log_two_lt_d9
      linarith)
  refine ⟨?_, ?_, ?_⟩
  · rfl
  · have h : (log_catch emptyDB
        ⟨"speckled_trout", "Zone 3", none, none, none, none, none, some 1, none,
          some "jig", false, false, none, none⟩
        env raw_score noFailures).1.rig_effects =
        [⟨"speckled_trout", "Zone 3", "jig", (1 : ℚ),
          min 3 (Real.log (((1 : ℚ) : ℝ) + 1))⟩] := by
      rw [log_catch]
      simp only [noFailures, Bool.false_eq_true, if_false, mk_catch_row,
        recalculate_bite_score, update_rig_effect]
      rfl
    rw [h, hlog2]
  · rw [log_catch]
    simp only [noFailures, Bool.false_eq_true, if_false, mk_catch_row,
      recalculate_bite_score]
    rfl

/-- C6: for every request, environment, raw score and combination of
learning-step failures, `log_catch` returns the success payload carrying
the persisted id, and the Catch row is committed before the trigger block
runs and survives every failure combination — trigger failures are caught
and never reach the caller or touch the catches table. -/
theorem log_catch_resilient_to_learning_failures (db : DB) (req : CatchCreate)
    (env : Conditions) (raw_score : ℚ) (flags : LearnFlags) :
    (log_catch db req env raw_score flags).2 =
      { id := db.catches.length + 1,
        message := "Catch logged successfully with full environment snapshot" } ∧
    (log_catch db req env raw_score flags).1.catches =
      db.catches ++ [mk_catch_row db req env] := by
  constructor
  · rfl
  · rw [log_catch]
    rcases flags with ⟨frig, fzce, frce, frecalc, ftip⟩
    cases frig
    · cases fzce
      · cases frce
        · cases frecalc
          · simp only [Bool.false_eq_true, if_false, recalculate_bite_score]
            rcases req.presentation with _ | rt
            · rfl
            · by_cases hrt : (rt == "") = true
              · simp only [hrt, if_true]
              · simp only [Bool.not_eq_true] at hrt
                simp only [hrt, Bool.false_eq_true, if_false]
          · simp only [Bool.false_eq_true, if_false, if_true]
            rcases req.presentation with _ | rt
            · rfl
            · by_cases hrt : (rt == "") = true
              · simp only [hrt, if_true]
              · simp only [Bool.not_eq_true] at hrt
                simp only [hrt, Bool.false_eq_true, if_false]
        · simp only [Bool.false_eq_true, if_false, if_true]
          rcases req.presentation with _ | rt
          · rfl
          · by_cases hrt : (rt == "") = true
            · simp only [hrt, if_true]
            · simp only [Bool.not_eq_true] at hrt
              simp only [hrt, Bool.false_eq_true, if_false]
      · simp only [Bool.false_eq_true, if_false, if_true]
        rcases req.presentation with _ | rt
        · rfl
        · by_cases hrt : (rt == "") = true
          · simp only [hrt, if_true]
          · simp only [Bool.not_eq_true] at hrt
            simp only [hrt, Bool.false_eq_true, if_false]
    · simp only [if_true]

end BayScan
